import Mathlib

/-
Verification of the mlflow excerpt: the error-taxonomy mapper
(mlflow/exceptions.py) and the dataset descriptor (mlflow/data/dataset.py),
embedded shallowly. Python dicts are insertion-ordered association lists
with unique keys; dict assignment overwrites in place or appends.
-/

set_option maxRecDepth 10000

/-- JSON-serializable primitive values appearing in exception kwargs and
wire responses: strings, integers, booleans, null. -/
inductive JVal where
  | jstr (s : String)
  | jnum (n : Int)
  | jbool (b : Bool)
  | jnull
deriving DecidableEq

/-- Python exception kinds raised by the modelled code paths. -/
inductive PyErr where
  | valueError
  | typeError
  | attributeError
deriving DecidableEq

/-- An arbitrary Python object passed as the message argument: either an
actual string, or some other object described by its str() rendering. -/
inductive PyObj where
  | str (s : String)
  | other (s : String)
deriving DecidableEq

/-- Python str() coercion applied to the message argument. -/
def pyStr : PyObj → String
  | .str s => s
  | .other s => s

/-- First-match lookup in an insertion-ordered dict (dict subscript / get). -/
def dictGet {κ α : Type} [DecidableEq κ] : List (κ × α) → κ → Option α
  | [], _ => none
  | (k, v) :: rest, k2 => if k2 = k then some v else dictGet rest k2

/-- Python dict.get(key, default). -/
def dictGetD {κ α : Type} [DecidableEq κ] (d : List (κ × α)) (k : κ) (dflt : α) : α :=
  (dictGet d k).getD dflt

/-- Python dict assignment d[k] = v: overwrite in place when the key is
present, append otherwise. -/
def dictSet {κ α : Type} [DecidableEq κ] (d : List (κ × α)) (k : κ) (v : α) : List (κ × α) :=
  match dictGet d k with
  | some _ => d.map (fun p => if p.1 = k then (k, v) else p)
  | none => d ++ [(k, v)]

/-- Python dict.update(other): assign each entry of other in order. -/
def dictUpdate {κ α : Type} [DecidableEq κ] (d other : List (κ × α)) : List (κ × α) :=
  other.foldl (fun acc p => dictSet acc p.1 p.2) d

/-- The error-code enumeration members imported by mlflow/exceptions.py from
mlflow.protos.databricks_pb2. -/
inductive ErrorCode where
  | ABORTED
  | ALREADY_EXISTS
  | BAD_REQUEST
  | CANCELLED
  | CUSTOMER_UNAUTHORIZED
  | DATA_LOSS
  | DEADLINE_EXCEEDED
  | ENDPOINT_NOT_FOUND
  | INTERNAL_ERROR
  | INVALID_PARAMETER_VALUE
  | INVALID_STATE
  | NOT_FOUND
  | NOT_IMPLEMENTED
  | PERMISSION_DENIED
  | REQUEST_LIMIT_EXCEEDED
  | RESOURCE_ALREADY_EXISTS
  | RESOURCE_CONFLICT
  | RESOURCE_DOES_NOT_EXIST
  | RESOURCE_EXHAUSTED
  | TEMPORARILY_UNAVAILABLE
  | UNAUTHENTICATED
deriving DecidableEq

/-- ErrorCode.Name on an enumeration member: its symbolic name string. -/
def ErrorCode.name : ErrorCode → String
  | .ABORTED => "ABORTED"
  | .ALREADY_EXISTS => "ALREADY_EXISTS"
  | .BAD_REQUEST => "BAD_REQUEST"
  | .CANCELLED => "CANCELLED"
  | .CUSTOMER_UNAUTHORIZED => "CUSTOMER_UNAUTHORIZED"
  | .DATA_LOSS => "DATA_LOSS"
  | .DEADLINE_EXCEEDED => "DEADLINE_EXCEEDED"
  | .ENDPOINT_NOT_FOUND => "ENDPOINT_NOT_FOUND"
  | .INTERNAL_ERROR => "INTERNAL_ERROR"
  | .INVALID_PARAMETER_VALUE => "INVALID_PARAMETER_VALUE"
  | .INVALID_STATE => "INVALID_STATE"
  | .NOT_FOUND => "NOT_FOUND"
  | .NOT_IMPLEMENTED => "NOT_IMPLEMENTED"
  | .PERMISSION_DENIED => "PERMISSION_DENIED"
  | .REQUEST_LIMIT_EXCEEDED => "REQUEST_LIMIT_EXCEEDED"
  | .RESOURCE_ALREADY_EXISTS => "RESOURCE_ALREADY_EXISTS"
  | .RESOURCE_CONFLICT => "RESOURCE_CONFLICT"
  | .RESOURCE_DOES_NOT_EXIST => "RESOURCE_DOES_NOT_EXIST"
  | .RESOURCE_EXHAUSTED => "RESOURCE_EXHAUSTED"
  | .TEMPORARILY_UNAVAILABLE => "TEMPORARILY_UNAVAILABLE"
  | .UNAUTHENTICATED => "UNAUTHENTICATED"

/-- All enumeration members (the closed set imported by exceptions.py). -/
def ErrorCode.all : List ErrorCode :=
  [.ABORTED, .ALREADY_EXISTS, .BAD_REQUEST, .CANCELLED, .CUSTOMER_UNAUTHORIZED,
   .DATA_LOSS, .DEADLINE_EXCEEDED, .ENDPOINT_NOT_FOUND, .INTERNAL_ERROR,
   .INVALID_PARAMETER_VALUE, .INVALID_STATE, .NOT_FOUND, .NOT_IMPLEMENTED,
   .PERMISSION_DENIED, .REQUEST_LIMIT_EXCEEDED, .RESOURCE_ALREADY_EXISTS,
   .RESOURCE_CONFLICT, .RESOURCE_DOES_NOT_EXIST, .RESOURCE_EXHAUSTED,
   .TEMPORARILY_UNAVAILABLE, .UNAUTHENTICATED]

/-- ErrorCode.Value on a name string: lookup by name, none when the name is
not a member (Python raises ValueError there). -/
def ErrorCode.value (s : String) : Option ErrorCode :=
  ErrorCode.all.find? (fun c => c.name = s)

/-- ERROR_CODE_TO_HTTP_STATUS, with entries in source order. -/
def ERROR_CODE_TO_HTTP_STATUS : List (String × Nat) :=
  [(ErrorCode.name .INTERNAL_ERROR, 500),
   (ErrorCode.name .INVALID_STATE, 500),
   (ErrorCode.name .DATA_LOSS, 500),
   (ErrorCode.name .NOT_IMPLEMENTED, 501),
   (ErrorCode.name .TEMPORARILY_UNAVAILABLE, 503),
   (ErrorCode.name .DEADLINE_EXCEEDED, 504),
   (ErrorCode.name .REQUEST_LIMIT_EXCEEDED, 429),
   (ErrorCode.name .CANCELLED, 499),
   (ErrorCode.name .RESOURCE_EXHAUSTED, 429),
   (ErrorCode.name .ABORTED, 409),
   (ErrorCode.name .RESOURCE_CONFLICT, 409),
   (ErrorCode.name .ALREADY_EXISTS, 409),
   (ErrorCode.name .NOT_FOUND, 404),
   (ErrorCode.name .ENDPOINT_NOT_FOUND, 404),
   (ErrorCode.name .RESOURCE_DOES_NOT_EXIST, 404),
   (ErrorCode.name .PERMISSION_DENIED, 403),
   (ErrorCode.name .CUSTOMER_UNAUTHORIZED, 401),
   (ErrorCode.name .UNAUTHENTICATED, 401),
   (ErrorCode.name .BAD_REQUEST, 400),
   (ErrorCode.name .RESOURCE_ALREADY_EXISTS, 400),
   (ErrorCode.name .INVALID_PARAMETER_VALUE, 400)]

/-- Python dict comprehension inverting a dict: iterate entries in insertion
order, assigning value-to-key; a later entry with the same value wins. -/
def invertDict (d : List (String × Nat)) : List (Nat × String) :=
  d.foldl (fun acc p => dictSet acc p.2 p.1) []

/-- HTTP_STATUS_TO_ERROR_CODE: the inverted table followed by the three
hardcoded canonical overrides for 400, 404 and 500. -/
def HTTP_STATUS_TO_ERROR_CODE : List (Nat × String) :=
  dictSet
    (dictSet
      (dictSet (invertDict ERROR_CODE_TO_HTTP_STATUS) 400 (ErrorCode.name .BAD_REQUEST))
      404 (ErrorCode.name .ENDPOINT_NOT_FOUND))
    500 (ErrorCode.name .INTERNAL_ERROR)

/-- get_error_code: look up the status with INTERNAL_ERROR's name as
default, then resolve the name back to the enumeration member. -/
def get_error_code (http_status : Nat) : Option ErrorCode :=
  ErrorCode.value (dictGetD HTTP_STATUS_TO_ERROR_CODE http_status (ErrorCode.name .INTERNAL_ERROR))

/-- The error_code argument accepted by MlflowException: a member of the
enumeration, an integer that is not a member value, or a non-numeric object
(described by its rendering). -/
inductive ErrorCodeArg where
  | member (c : ErrorCode)
  | badInt (n : Int)
  | nonNumeric (s : String)
deriving DecidableEq

/-- Whether the argument is a valid member of the enumeration. -/
def ErrorCodeArg.isMember : ErrorCodeArg → Bool
  | .member _ => true
  | _ => false

/-- ErrorCode.Name applied to a constructor argument: succeeds on a member,
raises ValueError on a non-member integer, TypeError on a non-numeric. -/
def ErrorCode.nameOf : ErrorCodeArg → Except PyErr String
  | .member c => .ok c.name
  | .badInt _ => .error .valueError
  | .nonNumeric _ => .error .typeError

/-- The MlflowException record: its error_code name, message, and the extra
kwargs destined for the serialized JSON representation. -/
structure MlflowException where
  error_code : String
  message : String
  json_kwargs : List (String × JVal)
deriving DecidableEq

/-- Constructor of MlflowException: ErrorCode.Name(error_code) with the
ValueError/TypeError fallback to INTERNAL_ERROR, str() coercion of the
message, kwargs stored for serialization. Total: the except clause absorbs
the lookup failure, so construction never raises. -/
def MlflowException.init (message : PyObj) (error_code : ErrorCodeArg)
    (kwargs : List (String × JVal)) : MlflowException :=
  { error_code :=
      match ErrorCode.nameOf error_code with
      | .ok n => n
      | .error _ => ErrorCode.name .INTERNAL_ERROR
    message := pyStr message
    json_kwargs := kwargs }

/-- Lowercase hexadecimal digit for a value below 16. -/
def hexDigit (n : Nat) : Char :=
  if n < 10 then Char.ofNat (48 + n) else Char.ofNat (87 + n)

/-- Four lowercase hex digits of a 16-bit value, most significant first. -/
def hex4 (n : Nat) : List Char :=
  [hexDigit (n / 4096 % 16), hexDigit (n / 256 % 16), hexDigit (n / 16 % 16), hexDigit (n % 16)]

/-- json.dumps escaping of one character, ensure_ascii semantics: short
escapes for the common controls, backslash-u escapes (with surrogate pairs
above 0xffff) for other controls and all non-ASCII characters. -/
def jsonEscapeChar (c : Char) : List Char :=
  if c = '"' then ['\\', '"']
  else if c = '\\' then ['\\', '\\']
  else if c = '\n' then ['\\', 'n']
  else if c = '\r' then ['\\', 'r']
  else if c = '\t' then ['\\', 't']
  else if c = '\x08' then ['\\', 'b']
  else if c = '\x0c' then ['\\', 'f']
  else if c.toNat < 32 ∨ 126 < c.toNat then
    if c.toNat < 65536 then '\\' :: 'u' :: hex4 c.toNat
    else
      ('\\' :: 'u' :: hex4 (55296 + (c.toNat - 65536) / 1024)) ++
      ('\\' :: 'u' :: hex4 (56320 + (c.toNat - 65536) % 1024))
  else [c]

/-- json.dumps rendering of a string: double quotes around the escaped
characters. -/
def dumpsString (s : String) : String :=
  String.mk (('"' :: s.data.flatMap jsonEscapeChar) ++ ['"'])

/-- json.dumps rendering of a primitive value. -/
def JVal.dumps : JVal → String
  | .jstr s => dumpsString s
  | .jnum n => toString n
  | .jbool true => "true"
  | .jbool false => "false"
  | .jnull => "null"

/-- json.dumps rendering of a flat dict with the default separators. -/
def dumpsDict (d : List (String × JVal)) : String :=
  "\x7b" ++ String.intercalate ", " (d.map (fun p => dumpsString p.1 ++ ": " ++ p.2.dumps)) ++ "\x7d"

/-- The dict built by serialize_as_json before dumping: the two reserved
keys followed by dict.update with the stored kwargs. -/
def MlflowException.serializeDict (e : MlflowException) : List (String × JVal) :=
  dictUpdate [("error_code", .jstr e.error_code), ("message", .jstr e.message)] e.json_kwargs

/-- serialize_as_json: dump the updated dict. -/
def MlflowException.serialize_as_json (e : MlflowException) : String :=
  dumpsDict e.serializeDict

/-- get_http_status_code: table lookup on the stored code name with
default 500. -/
def MlflowException.get_http_status_code (e : MlflowException) : Nat :=
  dictGetD ERROR_CODE_TO_HTTP_STATUS e.error_code 500

/-- The single-quote character, used by Python repr of strings. -/
def squote : Char := Char.ofNat 39

/-- Python repr escaping of one character given the chosen quote. -/
def pyReprEscChar (q c : Char) : List Char :=
  if c = '\\' then ['\\', '\\']
  else if c = q then ['\\', q]
  else if c = '\n' then ['\\', 'n']
  else if c = '\r' then ['\\', 'r']
  else if c = '\t' then ['\\', 't']
  else if c.toNat < 32 ∨ c.toNat = 127 then
    ['\\', 'x', hexDigit (c.toNat / 16 % 16), hexDigit (c.toNat % 16)]
  else [c]

/-- Python repr of a string: single quotes, switching to double quotes when
the string contains a single quote but no double quote. -/
def pyReprString (s : String) : String :=
  let q := if s.data.contains squote && !(s.data.contains '"') then '"' else squote
  String.mk ((q :: s.data.flatMap (pyReprEscChar q)) ++ [q])

/-- Python repr of a primitive value. -/
def JVal.pyRepr : JVal → String
  | .jstr s => pyReprString s
  | .jnum n => toString n
  | .jbool true => "True"
  | .jbool false => "False"
  | .jnull => "None"

/-- Python str of a primitive value: a string renders as itself, everything
else as its repr. -/
def JVal.pyStrOf : JVal → String
  | .jstr s => s
  | v => v.pyRepr

/-- Python str of a dict: repr of keys and values, comma separated, braces
around. -/
def pyStrDict (d : List (String × JVal)) : String :=
  "\x7b" ++ String.intercalate ", " (d.map (fun p => pyReprString p.1 ++ ": " ++ p.2.pyRepr)) ++ "\x7d"

/-- The RestException record: the underlying MlflowException state plus the
stored wire JSON object. -/
structure RestException where
  exc : MlflowException
  json : List (String × JVal)
deriving DecidableEq

/-- Constructor of RestException from a wire JSON object. Returns the record
and whether the unrecognized-code warning was logged. The error_code value
defaults to INTERNAL_ERROR's name; the message prefixes it to either the
response's message or the raw response; ErrorCode.Value failure (an
unrecognized name, or a non-string value missing from the name table) is
caught as ValueError and falls back to the default code. -/
def RestException.init (j : List (String × JVal)) : RestException × Bool :=
  let error_code : JVal := dictGetD j "error_code" (.jstr (ErrorCode.name .INTERNAL_ERROR))
  let message : String :=
    error_code.pyStrOf ++ ": " ++
      (match dictGet j "message" with
       | some m => m.pyStrOf
       | none => "Response: " ++ pyStrDict j)
  match error_code with
  | .jstr s =>
    match ErrorCode.value s with
    | some c => (⟨MlflowException.init (.str message) (.member c) [], j⟩, false)
    | none => (⟨MlflowException.init (.str message) (.member .INTERNAL_ERROR) [], j⟩, true)
  | _ => (⟨MlflowException.init (.str message) (.member .INTERNAL_ERROR) [], j⟩, true)

/-- UTF-8 encoding of one character as byte values (str.encode). -/
def utf8Bytes (c : Char) : List Nat :=
  let n := c.toNat
  if n < 128 then [n]
  else if n < 2048 then [192 + n / 64, 128 + n % 64]
  else if n < 65536 then [224 + n / 4096, 128 + n / 64 % 64, 128 + n % 64]
  else [240 + n / 262144, 128 + n / 4096 % 64, 128 + n / 64 % 64, 128 + n % 64]

/-- UTF-8 encoding of a string as byte values. -/
def strBytes (s : String) : List Nat :=
  s.data.flatMap utf8Bytes

/-- Addition modulo 2^32. -/
def add32 (a b : Nat) : Nat := (a + b) % 4294967296

/-- Bitwise complement within 32 bits (operand already below 2^32). -/
def not32 (x : Nat) : Nat := Nat.xor x 4294967295

/-- Left rotation of a 32-bit value by s bits (0 < s < 32). -/
def rotl32 (x s : Nat) : Nat :=
  (x * 2 ^ s % 4294967296 + x / 2 ^ (32 - s)) % 4294967296

/-- MD5 sine-derived round constants. -/
def md5K : List Nat :=
  [0xd76aa478, 0xe8c7b756, 0x242070db, 0xc1bdceee,
   0xf57c0faf, 0x4787c62a, 0xa8304613, 0xfd469501,
   0x698098d8, 0x8b44f7af, 0xffff5bb1, 0x895cd7be,
   0x6b901122, 0xfd987193, 0xa679438e, 0x49b40821,
   0xf61e2562, 0xc040b340, 0x265e5a51, 0xe9b6c7aa,
   0xd62f105d, 0x02441453, 0xd8a1e681, 0xe7d3fbc8,
   0x21e1cde6, 0xc33707d6, 0xf4d50d87, 0x455a14ed,
   0xa9e3e905, 0xfcefa3f8, 0x676f02d9, 0x8d2a4c8a,
   0xfffa3942, 0x8771f681, 0x6d9d6122, 0xfde5380c,
   0xa4beea44, 0x4bdecfa9, 0xf6bb4b60, 0xbebfbc70,
   0x289b7ec6, 0xeaa127fa, 0xd4ef3085, 0x04881d05,
   0xd9d4d039, 0xe6db99e5, 0x1fa27cf8, 0xc4ac5665,
   0xf4292244, 0x432aff97, 0xab9423a7, 0xfc93a039,
   0x655b59c3, 0x8f0ccc92, 0xffeff47d, 0x85845dd1,
   0x6fa87e4f, 0xfe2ce6e0, 0xa3014314, 0x4e0811a1,
   0xf7537e82, 0xbd3af235, 0x2ad7d2bb, 0xeb86d391]

/-- MD5 per-round left-rotation amounts. -/
def md5S : List Nat :=
  [7, 12, 17, 22, 7, 12, 17, 22, 7, 12, 17, 22, 7, 12, 17, 22,
   5, 9, 14, 20, 5, 9, 14, 20, 5, 9, 14, 20, 5, 9, 14, 20,
   4, 11, 16, 23, 4, 11, 16, 23, 4, 11, 16, 23, 4, 11, 16, 23,
   6, 10, 15, 21, 6, 10, 15, 21, 6, 10, 15, 21, 6, 10, 15, 21]

/-- The four MD5 state words. -/
structure MD5State where
  a : Nat
  b : Nat
  c : Nat
  d : Nat

/-- MD5 nonlinear function for round i. -/
def md5F (i b c d : Nat) : Nat :=
  if i < 16 then Nat.lor (Nat.land b c) (Nat.land (not32 b) d)
  else if i < 32 then Nat.lor (Nat.land d b) (Nat.land (not32 d) c)
  else if i < 48 then Nat.xor (Nat.xor b c) d
  else Nat.xor c (Nat.lor b (not32 d))

/-- MD5 message-word index for round i. -/
def md5G (i : Nat) : Nat :=
  if i < 16 then i
  else if i < 32 then (5 * i + 1) % 16
  else if i < 48 then (3 * i + 5) % 16
  else 7 * i % 16

/-- One MD5 round on the working state, reading message word m (md5G i). -/
def md5Round (m : Nat → Nat) (st : MD5State) (i : Nat) : MD5State :=
  let f := add32 (add32 (add32 (md5F i st.b st.c st.d) st.a) (md5K.getD i 0)) (m (md5G i))
  ⟨st.d, add32 st.b (rotl32 f (md5S.getD i 0)), st.b, st.c⟩

/-- Process one 64-byte chunk: run 64 rounds and add the result into the
running state, all modulo 2^32. -/
def md5Chunk (st : MD5State) (chunk : List Nat) : MD5State :=
  let m : Nat → Nat := fun g =>
    chunk.getD (4 * g) 0 + 256 * chunk.getD (4 * g + 1) 0 +
      65536 * chunk.getD (4 * g + 2) 0 + 16777216 * chunk.getD (4 * g + 3) 0
  let w := (List.range 64).foldl (md5Round m) st
  ⟨add32 st.a w.a, add32 st.b w.b, add32 st.c w.c, add32 st.d w.d⟩

/-- MD5 padding: a 0x80 byte, zeros up to 56 mod 64, then the bit length
modulo 2^64 as eight little-endian bytes. -/
def md5Pad (msg : List Nat) : List Nat :=
  let len := msg.length
  msg ++ [128] ++ List.replicate ((119 - len % 64) % 64) 0 ++
    (List.range 8).map (fun i => len * 8 % 18446744073709551616 / 256 ^ i % 256)

/-- Split a byte list into 64-byte chunks. -/
def toChunks (l : List Nat) : List (List Nat) :=
  if h : l = [] then []
  else l.take 64 :: toChunks (l.drop 64)
termination_by l.length
decreasing_by
  have hp : 0 < l.length := List.length_pos.mpr h
  simp only [List.length_drop]
  omega

/-- The four bytes of a 32-bit word, least significant first. -/
def le4 (x : Nat) : List Nat :=
  [x % 256, x / 256 % 256, x / 65536 % 256, x / 16777216 % 256]

/-- Full MD5: pad, fold the chunks from the standard initial state, and emit
the sixteen digest bytes little-endian per word. -/
def md5Bytes (msg : List Nat) : List Nat :=
  let st := (toChunks (md5Pad msg)).foldl md5Chunk
    ⟨0x67452301, 0xefcdab89, 0x98badcfe, 0x10325476⟩
  le4 st.a ++ le4 st.b ++ le4 st.c ++ le4 st.d

/-- Two lowercase hex characters of a byte. -/
def byteHexChars (b : Nat) : List Char :=
  [hexDigit (b / 16 % 16), hexDigit (b % 16)]

/-- hashlib md5(...).hexdigest(): 32 lowercase hex characters. -/
def md5hexdigest (msg : List Nat) : String :=
  String.mk ((md5Bytes msg).flatMap byteHexChars)

/-- Python string slicing s[:n] (by characters). -/
def pySlice (s : String) (n : Nat) : String :=
  String.mk (s.data.take n)

/-- A DatasetSource as seen by dataset.py: the fixed results of its
to_json() and _get_source_type() methods. -/
structure DatasetSource where
  to_json : String
  source_type : String
deriving DecidableEq

/-- The _get_source_type() method result. -/
def DatasetSource._get_source_type (s : DatasetSource) : String :=
  s.source_type

/-- The name property's value for a stored optional name: the fixed
placeholder "dataset" when absent. -/
def namePropVal : Option String → String
  | some n => n
  | none => "dataset"

/-- Dataset._compute_digest as a function of the attributes it reads:
md5 of the json.dumps of the ordered config dict, truncated to 8 hex
characters. -/
def _compute_digest (name : Option String) (source : DatasetSource) : String :=
  let config : List (String × JVal) :=
    [("name", .jstr (namePropVal name)),
     ("source", .jstr source.to_json),
     ("source_type", .jstr source._get_source_type)]
  pySlice (md5hexdigest (strBytes (dumpsDict config))) 8

/-- The Dataset record: the stored constructor attributes. -/
structure Dataset where
  _name : Option String
  _source : Option DatasetSource
  _digest : String
deriving DecidableEq

/-- The name property: the stored name, or the placeholder "dataset". -/
def Dataset.name (d : Dataset) : String :=
  namePropVal d._name

/-- The digest property. -/
def Dataset.digest (d : Dataset) : String :=
  d._digest

/-- Dataset.__init__: no validation of source; the digest argument is
taken when truthy (non-empty), otherwise _compute_digest runs, which
dereferences the source and raises AttributeError when the source is
absent (or lacks the to_json method). -/
def Dataset.init (source : Option DatasetSource) (name : Option String)
    (digest : Option String) : Except PyErr Dataset :=
  let compute : Except PyErr Dataset :=
    match source with
    | none => .error .attributeError
    | some src => .ok ⟨name, some src, _compute_digest name src⟩
  match digest with
  | some d => if d = "" then compute else .ok ⟨name, source, d⟩
  | none => compute

/-- Serialized values in a persisted model descriptor document: a string, a
flat dict of primitives, or a dict of named flat dicts (the flavors map). -/
inductive YVal where
  | ystr (s : String)
  | ydict (d : List (String × JVal))
  | ydict2 (d : List (String × List (String × JVal)))
deriving DecidableEq

/-- Modelled from the spec: the Model descriptor of mlflow/models/model.py,
which is exercised by src/tests/models/test_model.py but whose definition is
not part of this excerpt. Per the spec it aggregates identity and
variant-specific fields (flavors, signature, run_id, model_uuid,
utc_time_created, saved_input_example_info, metadata), the flavor map being
a mutable accumulator of named payloads. -/
structure Model where
  artifact_path : Option String
  run_id : Option String
  utc_time_created : String
  flavors : List (String × List (String × JVal))
  signature : Option (List (String × JVal))
  saved_input_example_info : Option (List (String × JVal))
  model_uuid : Option String
  mlflow_version : Option String
  metadata : Option (List (String × JVal))
deriving DecidableEq

/-- An optional entry of a serialized document: present only when the field
is populated. -/
def optEntry (k : String) : Option YVal → List (String × YVal)
  | some v => [(k, v)]
  | none => []

/-- Modelled from the spec: Model.to_dict, the canonical serialized form;
optional fields are omitted when absent (absent keys load back as None). -/
def Model.to_dict (m : Model) : List (String × YVal) :=
  optEntry "artifact_path" (m.artifact_path.map .ystr) ++
  optEntry "run_id" (m.run_id.map .ystr) ++
  [("utc_time_created", .ystr m.utc_time_created)] ++
  [("flavors", .ydict2 m.flavors)] ++
  optEntry "signature" (m.signature.map .ydict) ++
  optEntry "saved_input_example_info" (m.saved_input_example_info.map .ydict) ++
  optEntry "model_uuid" (m.model_uuid.map .ystr) ++
  optEntry "mlflow_version" (m.mlflow_version.map .ystr) ++
  optEntry "metadata" (m.metadata.map .ydict)

/-- String field read from a serialized document. -/
def getYStr (d : List (String × YVal)) (k : String) : Option String :=
  match dictGet d k with
  | some (.ystr s) => some s
  | _ => none

/-- Flat-dict field read from a serialized document. -/
def getYDict (d : List (String × YVal)) (k : String) : Option (List (String × JVal)) :=
  match dictGet d k with
  | some (.ydict v) => some v
  | _ => none

/-- Nested-dict field read from a serialized document. -/
def getYDict2 (d : List (String × YVal)) (k : String) : Option (List (String × List (String × JVal))) :=
  match dictGet d k with
  | some (.ydict2 v) => some v
  | _ => none

/-- Modelled from the spec: Model.from_dict, reconstructing a descriptor
from a serialized document; keys absent from the document leave the
corresponding field as None. -/
def Model.from_dict (d : List (String × YVal)) : Model :=
  { artifact_path := getYStr d "artifact_path"
    run_id := getYStr d "run_id"
    utc_time_created := (getYStr d "utc_time_created").getD ""
    flavors := (getYDict2 d "flavors").getD []
    signature := getYDict d "signature"
    saved_input_example_info := getYDict d "saved_input_example_info"
    model_uuid := getYStr d "model_uuid"
    mlflow_version := getYStr d "mlflow_version"
    metadata := getYDict d "metadata" }

theorem strMk_length (cs : List Char) : (String.mk cs).length = cs.length := rfl

theorem md5hexdigest_length (msg : List Nat) : (md5hexdigest msg).length = 32 := by
  simp [md5hexdigest, md5Bytes, le4, byteHexChars, strMk_length, List.flatMap_append]

theorem compute_digest_length (name : Option String) (src : DatasetSource) :
    (_compute_digest name src).length = 8 := by
  have h := md5hexdigest_length (strBytes (dumpsDict
    [("name", .jstr (namePropVal name)),
     ("source", .jstr src.to_json),
     ("source_type", .jstr src._get_source_type)]))
  simp [_compute_digest, pySlice, strMk_length, List.length_take]
  omega

theorem dictGet_append {κ α : Type} [DecidableEq κ] (l1 l2 : List (κ × α)) (k : κ) :
    dictGet (l1 ++ l2) k =
      match dictGet l1 k with
      | some v => some v
      | none => dictGet l2 k := by
  induction l1 with
  | nil => simp [dictGet]
  | cons p rest ih =>
    obtain ⟨k1, v1⟩ := p
    by_cases hk : k = k1 <;> simp [dictGet, hk, ih]

theorem dictGet_mapReplace_ne {κ α : Type} [DecidableEq κ] (d : List (κ × α)) (k k2 : κ)
    (v : α) (h : k2 ≠ k) :
    dictGet (d.map (fun p => if p.1 = k then (k, v) else p)) k2 = dictGet d k2 := by
  induction d with
  | nil => simp
  | cons p rest ih =>
    obtain ⟨k1, v1⟩ := p
    simp only [List.map_cons]
    by_cases h1 : k1 = k
    · rw [if_pos h1]
      subst h1
      simp [dictGet, h, ih]
    · rw [if_neg h1]
      by_cases h2 : k2 = k1 <;> simp [dictGet, h2, ih]

theorem dictGet_mapReplace_self {κ α : Type} [DecidableEq κ] (d : List (κ × α)) (k : κ)
    (v : α) (h : (dictGet d k).isSome) :
    dictGet (d.map (fun p => if p.1 = k then (k, v) else p)) k = some v := by
  induction d with
  | nil => simp [dictGet] at h
  | cons p rest ih =>
    obtain ⟨k1, v1⟩ := p
    simp only [List.map_cons]
    by_cases h1 : k1 = k
    · rw [if_pos h1]
      simp [dictGet]
    · rw [if_neg h1]
      have hk : ¬ k = k1 := fun hh => h1 hh.symm
      simp only [dictGet, if_neg hk] at h ⊢
      exact ih h

theorem dictGet_dictSet_self {κ α : Type} [DecidableEq κ] (d : List (κ × α)) (k : κ) (v : α) :
    dictGet (dictSet d k v) k = some v := by
  unfold dictSet
  cases h : dictGet d k with
  | none => rw [dictGet_append, h]; simp [dictGet]
  | some w => exact dictGet_mapReplace_self d k v (by simp [h])

theorem dictGet_dictSet_ne {κ α : Type} [DecidableEq κ] (d : List (κ × α)) (k k2 : κ)
    (v : α) (h : k2 ≠ k) :
    dictGet (dictSet d k v) k2 = dictGet d k2 := by
  unfold dictSet
  cases hd : dictGet d k with
  | none =>
    rw [dictGet_append]
    cases hd2 : dictGet d k2 <;> simp [dictGet, h]
  | some w => exact dictGet_mapReplace_ne d k k2 v h

theorem dictGet_eq_none_of_forall_not_mem {κ α : Type} [DecidableEq κ]
    (d : List (κ × α)) (k : κ) (h : ∀ v, (k, v) ∉ d) : dictGet d k = none := by
  induction d with
  | nil => rfl
  | cons p rest ih =>
    obtain ⟨k1, v1⟩ := p
    have hk : ¬ k = k1 := by
      intro he
      exact h v1 (by rw [he]; exact List.mem_cons_self _ _)
    rw [show dictGet ((k1, v1) :: rest) k = dictGet rest k from by simp [dictGet, hk]]
    exact ih (fun v hv => h v (List.mem_cons_of_mem _ hv))

theorem dictGet_dictUpdate {κ α : Type} [DecidableEq κ] (base kw : List (κ × α)) (k : κ)
    (h : (kw.map Prod.fst).Nodup) :
    dictGet (dictUpdate base kw) k =
      match dictGet kw k with
      | some v => some v
      | none => dictGet base k := by
  induction kw generalizing base with
  | nil => simp [dictUpdate, dictGet]
  | cons p rest ih =>
    obtain ⟨k1, v1⟩ := p
    rw [List.map_cons, List.nodup_cons] at h
    have step : dictUpdate base ((k1, v1) :: rest) = dictUpdate (dictSet base k1 v1) rest := rfl
    rw [step, ih _ h.2]
    by_cases hk : k = k1
    · subst hk
      have hnone : dictGet rest k = none := by
        apply dictGet_eq_none_of_forall_not_mem
        intro v hv
        exact h.1 (List.mem_map.mpr ⟨(k, v), hv, rfl⟩)
      rw [hnone]
      simp [dictGet, dictGet_dictSet_self]
    · cases hr : dictGet rest k <;>
        simp [dictGet, hk, hr, dictGet_dictSet_ne base k1 k v1 hk]

theorem dictGet_optEntry_self (k : String) (v : Option YVal) (rest : List (String × YVal)) :
    dictGet (optEntry k v ++ rest) k =
      match v with
      | some x => some x
      | none => dictGet rest k := by
  cases v <;> simp [optEntry, dictGet]

theorem dictGet_optEntry_ne (k k2 : String) (v : Option YVal) (rest : List (String × YVal))
    (h : k2 ≠ k) :
    dictGet (optEntry k v ++ rest) k2 = dictGet rest k2 := by
  cases v <;> simp [optEntry, dictGet, h]

theorem dictGet_optEntry_last_self (k : String) (v : Option YVal) :
    dictGet (optEntry k v) k = v := by
  cases v <;> simp [optEntry, dictGet]

theorem dictGet_optEntry_last_ne (k k2 : String) (v : Option YVal) (h : k2 ≠ k) :
    dictGet (optEntry k v) k2 = none := by
  cases v <;> simp [optEntry, dictGet, h]

/-- C1: for every descriptor with a fixed name and a source whose to_json()
and _get_source_type() results are fixed, _compute_digest is deterministic
(recomputation on the unchanged inputs yields the same string) and the
digest has length exactly 8. -/
theorem c1_compute_digest_deterministic_len8 (name : Option String) (src : DatasetSource) :
    _compute_digest name src = _compute_digest name src ∧
    (_compute_digest name src).length = 8 :=
  ⟨rfl, compute_digest_length name src⟩

/-- C2: the status-to-code table maps 400 to BAD_REQUEST, 404 to
ENDPOINT_NOT_FOUND and 500 to INTERNAL_ERROR (the hardcoded canonical
overrides); get_error_code returns INTERNAL_ERROR for any status absent
from the table; and composing code-to-status with status-to-code for
NOT_FOUND yields ENDPOINT_NOT_FOUND, not NOT_FOUND. -/
theorem c2_status_to_code_canonical (s : Nat)
    (h : dictGet HTTP_STATUS_TO_ERROR_CODE s = none) :
    dictGet HTTP_STATUS_TO_ERROR_CODE 400 = some (ErrorCode.name .BAD_REQUEST) ∧
    dictGet HTTP_STATUS_TO_ERROR_CODE 404 = some (ErrorCode.name .ENDPOINT_NOT_FOUND) ∧
    dictGet HTTP_STATUS_TO_ERROR_CODE 500 = some (ErrorCode.name .INTERNAL_ERROR) ∧
    get_error_code s = some .INTERNAL_ERROR ∧
    get_error_code
        (MlflowException.get_http_status_code ⟨ErrorCode.name .NOT_FOUND, "msg", []⟩) =
      some .ENDPOINT_NOT_FOUND := by
  refine ⟨by decide, by decide, by decide, ?_, by decide⟩
  simp [get_error_code, dictGetD, h]
  decide

/-- Witness for C2 at the unmapped status 418. -/
theorem c2_status_to_code_canonical_witness :
    get_error_code 418 = some ErrorCode.INTERNAL_ERROR :=
  (c2_status_to_code_canonical 418 (by decide)).2.2.2.1

/-- C3: for every message and every error_code argument that is not a valid
member of the enumeration (a non-member integer or a non-numeric object),
construction does not raise (the constructor is total in this embedding)
and the resulting error_code field is the INTERNAL_ERROR code name. -/
theorem c3_invalid_code_falls_back (m : PyObj) (arg : ErrorCodeArg)
    (kw : List (String × JVal)) (h : arg.isMember = false) :
    (MlflowException.init m arg kw).error_code = ErrorCode.name .INTERNAL_ERROR := by
  cases arg with
  | member c => simp [ErrorCodeArg.isMember] at h
  | badInt n => rfl
  | nonNumeric s => rfl

/-- Witness for C3 at a non-member integer code. -/
theorem c3_invalid_code_falls_back_witness :
    (MlflowException.init (.str "msg") (.badInt 999) []).error_code =
      ErrorCode.name .INTERNAL_ERROR :=
  c3_invalid_code_falls_back (.str "msg") (.badInt 999) [] rfl

/-- C4: the dict serialized by serialize_as_json binds error_code to the
exception's code name and message to its message, contains every extra
kwargs pair, and a kwargs entry named error_code or message overwrites the
reserved value; concretely, the INVALID_PARAMETER_VALUE exception with
message "bad input" and no extras serializes to exactly the expected JSON
string and its HTTP status is 400. -/
theorem c4_serialize_contents (m : PyObj) (arg : ErrorCodeArg) (kw : List (String × JVal))
    (k : String) (v : JVal) (hk : (kw.map Prod.fst).Nodup) (hkv : dictGet kw k = some v) :
    dictGet (MlflowException.init m arg kw).serializeDict "error_code" =
      some ((dictGet kw "error_code").getD (.jstr (MlflowException.init m arg kw).error_code)) ∧
    dictGet (MlflowException.init m arg kw).serializeDict "message" =
      some ((dictGet kw "message").getD (.jstr (MlflowException.init m arg kw).message)) ∧
    dictGet (MlflowException.init m arg kw).serializeDict k = some v ∧
    MlflowException.serialize_as_json
        (MlflowException.init (.str "bad input") (.member .INVALID_PARAMETER_VALUE) []) =
      "\x7b\"error_code\": \"INVALID_PARAMETER_VALUE\", \"message\": \"bad input\"\x7d" ∧
    MlflowException.get_http_status_code
        (MlflowException.init (.str "bad input") (.member .INVALID_PARAMETER_VALUE) []) = 400 := by
  have hkw : (MlflowException.init m arg kw).json_kwargs = kw := rfl
  refine ⟨?_, ?_, ?_, by decide, by decide⟩
  · rw [MlflowException.serializeDict, hkw, dictGet_dictUpdate _ kw _ hk]
    cases hec : dictGet kw "error_code" <;> simp [dictGet]
  · rw [MlflowException.serializeDict, hkw, dictGet_dictUpdate _ kw _ hk]
    cases hms : dictGet kw "message" <;> simp [dictGet]
  · rw [MlflowException.serializeDict, hkw, dictGet_dictUpdate _ kw _ hk, hkv]

/-- Witness for C4 with one extra kwargs pair. -/
theorem c4_serialize_contents_witness :
    dictGet (MlflowException.init (.str "m") (.member .NOT_FOUND)
        [("x", JVal.jnum 1)]).serializeDict "error_code" =
      some ((dictGet [("x", JVal.jnum 1)] "error_code").getD
        (.jstr (MlflowException.init (.str "m") (.member .NOT_FOUND)
          [("x", JVal.jnum 1)]).error_code)) ∧
    dictGet (MlflowException.init (.str "m") (.member .NOT_FOUND)
        [("x", JVal.jnum 1)]).serializeDict "message" =
      some ((dictGet [("x", JVal.jnum 1)] "message").getD
        (.jstr (MlflowException.init (.str "m") (.member .NOT_FOUND)
          [("x", JVal.jnum 1)]).message)) ∧
    dictGet (MlflowException.init (.str "m") (.member .NOT_FOUND)
        [("x", JVal.jnum 1)]).serializeDict "x" = some (JVal.jnum 1) ∧
    MlflowException.serialize_as_json
        (MlflowException.init (.str "bad input") (.member .INVALID_PARAMETER_VALUE) []) =
      "\x7b\"error_code\": \"INVALID_PARAMETER_VALUE\", \"message\": \"bad input\"\x7d" ∧
    MlflowException.get_http_status_code
        (MlflowException.init (.str "bad input") (.member .INVALID_PARAMETER_VALUE) []) = 400 :=
  c4_serialize_contents (.str "m") (.member .NOT_FOUND) [("x", JVal.jnum 1)] "x" (JVal.jnum 1)
    (by decide) (by decide)

/-- C5: the code-to-status table is total over the closed enumeration of
error codes, returns exactly the fixed table values for the codes named by
the claim, and get_http_status_code falls back to 500 for a code name
absent from the table. -/
theorem c5_code_to_status_table (nm : String)
    (h : dictGet ERROR_CODE_TO_HTTP_STATUS nm = none) :
    (∀ c : ErrorCode, (dictGet ERROR_CODE_TO_HTTP_STATUS (ErrorCode.name c)).isSome) ∧
    (dictGet ERROR_CODE_TO_HTTP_STATUS (ErrorCode.name .INTERNAL_ERROR) = some 500 ∧
     dictGet ERROR_CODE_TO_HTTP_STATUS (ErrorCode.name .NOT_IMPLEMENTED) = some 501 ∧
     dictGet ERROR_CODE_TO_HTTP_STATUS (ErrorCode.name .TEMPORARILY_UNAVAILABLE) = some 503 ∧
     dictGet ERROR_CODE_TO_HTTP_STATUS (ErrorCode.name .DEADLINE_EXCEEDED) = some 504 ∧
     dictGet ERROR_CODE_TO_HTTP_STATUS (ErrorCode.name .REQUEST_LIMIT_EXCEEDED) = some 429 ∧
     dictGet ERROR_CODE_TO_HTTP_STATUS (ErrorCode.name .RESOURCE_EXHAUSTED) = some 429 ∧
     dictGet ERROR_CODE_TO_HTTP_STATUS (ErrorCode.name .ABORTED) = some 409 ∧
     dictGet ERROR_CODE_TO_HTTP_STATUS (ErrorCode.name .RESOURCE_CONFLICT) = some 409 ∧
     dictGet ERROR_CODE_TO_HTTP_STATUS (ErrorCode.name .ALREADY_EXISTS) = some 409 ∧
     dictGet ERROR_CODE_TO_HTTP_STATUS (ErrorCode.name .NOT_FOUND) = some 404 ∧
     dictGet ERROR_CODE_TO_HTTP_STATUS (ErrorCode.name .ENDPOINT_NOT_FOUND) = some 404 ∧
     dictGet ERROR_CODE_TO_HTTP_STATUS (ErrorCode.name .RESOURCE_DOES_NOT_EXIST) = some 404 ∧
     dictGet ERROR_CODE_TO_HTTP_STATUS (ErrorCode.name .PERMISSION_DENIED) = some 403 ∧
     dictGet ERROR_CODE_TO_HTTP_STATUS (ErrorCode.name .CUSTOMER_UNAUTHORIZED) = some 401 ∧
     dictGet ERROR_CODE_TO_HTTP_STATUS (ErrorCode.name .UNAUTHENTICATED) = some 401 ∧
     dictGet ERROR_CODE_TO_HTTP_STATUS (ErrorCode.name .BAD_REQUEST) = some 400 ∧
     dictGet ERROR_CODE_TO_HTTP_STATUS (ErrorCode.name .RESOURCE_ALREADY_EXISTS) = some 400 ∧
     dictGet ERROR_CODE_TO_HTTP_STATUS (ErrorCode.name .INVALID_PARAMETER_VALUE) = some 400) ∧
    MlflowException.get_http_status_code ⟨nm, "msg", []⟩ = 500 := by
  refine ⟨fun c => by cases c <;> decide, by decide, ?_⟩
  simp [MlflowException.get_http_status_code, dictGetD, h]

/-- Witness for C5 at a code name outside the table. -/
theorem c5_code_to_status_table_witness :
    MlflowException.get_http_status_code ⟨"IO_ERROR", "msg", []⟩ = 500 :=
  (c5_code_to_status_table "IO_ERROR" (by decide)).2.2

/-- C6: constructing a RestException from a JSON object without a message
key produces a message embedding the raw response (the error-code value,
a colon, then "Response: " followed by the str() of the whole object); and
constructing one whose error_code string is not a recognized member does
not raise, stores the INTERNAL_ERROR code name, and logs the non-fatal
warning. -/
theorem c6_rest_exception_fallbacks (j1 j2 : List (String × JVal)) (s : String) :
    (dictGet j1 "message" = none →
      (RestException.init j1).1.exc.message =
        (dictGetD j1 "error_code" (.jstr (ErrorCode.name .INTERNAL_ERROR))).pyStrOf ++
          ": " ++ ("Response: " ++ pyStrDict j1)) ∧
    (dictGet j2 "error_code" = some (.jstr s) → ErrorCode.value s = none →
      (RestException.init j2).1.exc.error_code = ErrorCode.name .INTERNAL_ERROR ∧
      (RestException.init j2).2 = true) := by
  constructor
  · intro hm
    dsimp only [RestException.init]
    rw [hm]
    split
    · split
      · rfl
      · rfl
    · rfl
  · intro he hv
    have hd : dictGetD j2 "error_code" (JVal.jstr (ErrorCode.name .INTERNAL_ERROR)) =
        .jstr s := by
      simp [dictGetD, he]
    dsimp only [RestException.init]
    rw [hd]
    simp only [hv]
    exact ⟨rfl, trivial⟩

/-- Witness for C6 at a one-entry response with an unrecognized code and no
message key. -/
theorem c6_rest_exception_fallbacks_witness :
    ((RestException.init [("error_code", JVal.jstr "OOPS")]).1.exc.message =
      (dictGetD [("error_code", JVal.jstr "OOPS")] "error_code"
          (.jstr (ErrorCode.name .INTERNAL_ERROR))).pyStrOf ++
        ": " ++ ("Response: " ++ pyStrDict [("error_code", JVal.jstr "OOPS")])) ∧
    ((RestException.init [("error_code", JVal.jstr "OOPS")]).1.exc.error_code =
        ErrorCode.name .INTERNAL_ERROR ∧
      (RestException.init [("error_code", JVal.jstr "OOPS")]).2 = true) :=
  ⟨(c6_rest_exception_fallbacks [("error_code", JVal.jstr "OOPS")]
      [("error_code", JVal.jstr "OOPS")] "OOPS").1 (by decide),
   (c6_rest_exception_fallbacks [("error_code", JVal.jstr "OOPS")]
      [("error_code", JVal.jstr "OOPS")] "OOPS").2 (by decide) (by decide)⟩

/-- C7 counterexample: when a digest is supplied, Dataset construction with
an absent source succeeds rather than failing with a validation error, so
the claimed failure does not hold regardless of the digest argument. -/
theorem c7_counterexample_digest_skips_validation :
    Dataset.init none (some "n") (some "abc12345") = .ok ⟨some "n", none, "abc12345"⟩ := by
  simp [Dataset.init]

/-- C7 amended: constructing a Dataset with an absent (or malformed) source
fails only when the digest argument is absent or empty, and the failure is
an AttributeError raised from digest computation, not a typed validation
error; with a non-empty digest the source is stored unvalidated. -/
theorem c7_amended_source_validation (name : Option String) (d : String) (hd : d ≠ "") :
    Dataset.init none name none = .error .attributeError ∧
    Dataset.init none name (some "") = .error .attributeError ∧
    Dataset.init none name (some d) = .ok ⟨name, none, d⟩ := by
  refine ⟨rfl, by simp [Dataset.init], by simp [Dataset.init, hd]⟩

/-- Witness for the amended C7 at a concrete non-empty digest. -/
theorem c7_amended_source_validation_witness :
    Dataset.init none (some "nm") none = .error .attributeError ∧
    Dataset.init none (some "nm") (some "") = .error .attributeError ∧
    Dataset.init none (some "nm") (some "abc") = .ok ⟨some "nm", none, "abc"⟩ :=
  c7_amended_source_validation (some "nm") "abc" (by decide)

/-- C8: for every constructed model descriptor, from_dict of to_dict
reconstructs a descriptor equal on every serialized field (here: equal as
records, since every field of the model record is serialized). -/
theorem c8_model_round_trip (m : Model) : Model.from_dict (Model.to_dict m) = m := by
  obtain ⟨art, run, utc, fl, sig, sie, mu, mv, md⟩ := m
  simp only [Model.to_dict, Model.from_dict, Model.mk.injEq, List.append_assoc]
  refine ⟨?_, ?_, ?_, ?_, ?_, ?_, ?_, ?_, ?_⟩
  · cases art <;> simp [getYStr, dictGet_optEntry_self, dictGet_optEntry_ne,
      dictGet_optEntry_last_self, dictGet_optEntry_last_ne, dictGet]
  · cases run <;> simp [getYStr, dictGet_optEntry_self, dictGet_optEntry_ne,
      dictGet_optEntry_last_self, dictGet_optEntry_last_ne, dictGet]
  · simp [getYStr, dictGet_optEntry_self, dictGet_optEntry_ne,
      dictGet_optEntry_last_self, dictGet_optEntry_last_ne, dictGet]
  · simp [getYDict2, dictGet_optEntry_self, dictGet_optEntry_ne,
      dictGet_optEntry_last_self, dictGet_optEntry_last_ne, dictGet]
  · cases sig <;> simp [getYDict, dictGet_optEntry_self, dictGet_optEntry_ne,
      dictGet_optEntry_last_self, dictGet_optEntry_last_ne, dictGet]
  · cases sie <;> simp [getYDict, dictGet_optEntry_self, dictGet_optEntry_ne,
      dictGet_optEntry_last_self, dictGet_optEntry_last_ne, dictGet]
  · cases mu <;> simp [getYStr, dictGet_optEntry_self, dictGet_optEntry_ne,
      dictGet_optEntry_last_self, dictGet_optEntry_last_ne, dictGet]
  · cases mv <;> simp [getYStr, dictGet_optEntry_self, dictGet_optEntry_ne,
      dictGet_optEntry_last_self, dictGet_optEntry_last_ne, dictGet]
  · cases md <;> simp [getYDict, dictGet_optEntry_self, dictGet_optEntry_ne,
      dictGet_optEntry_last_self, dictGet_optEntry_last_ne, dictGet]

/-- C9: a descriptor constructed with no name and a source has name
property "dataset" and a computed digest of length 8; with a supplied name
the name property returns it unchanged. -/
theorem c9_default_name_and_digest_len (src : DatasetSource) (n : String) :
    (Dataset.init (some src) none none).map (fun d => (d.name, d.digest.length)) =
      .ok ("dataset", 8) ∧
    (Dataset.init (some src) (some n) none).map Dataset.name = .ok n := by
  constructor
  · simp [Dataset.init, Except.map, Dataset.name, Dataset.digest, namePropVal,
      compute_digest_length]
  · simp [Dataset.init, Except.map, Dataset.name, namePropVal]

/-- C10: after construction of any MlflowException (and of the RestException
subclass), the error_code field is always a valid enumeration member name,
and the message field is exactly the str() coercion of the message
argument. -/
theorem c10_error_code_invariant (m : PyObj) (arg : ErrorCodeArg)
    (kw : List (String × JVal)) (j : List (String × JVal)) :
    (∃ c, (MlflowException.init m arg kw).error_code = ErrorCode.name c) ∧
    (MlflowException.init m arg kw).message = pyStr m ∧
    (∃ c, (RestException.init j).1.exc.error_code = ErrorCode.name c) := by
  refine ⟨?_, rfl, ?_⟩
  · cases arg with
    | member c => exact ⟨c, rfl⟩
    | badInt n => exact ⟨.INTERNAL_ERROR, rfl⟩
    | nonNumeric s => exact ⟨.INTERNAL_ERROR, rfl⟩
  · dsimp only [RestException.init]
    split
    · split
      · rename_i c hc
        exact ⟨c, rfl⟩
      · exact ⟨.INTERNAL_ERROR, rfl⟩
    · exact ⟨.INTERNAL_ERROR, rfl⟩
